import Mathlib

/-!
Verification of the Command Runner Home Assistant integration
(`custom_components/command_runner/`): button platform, sensor platform and
config flow, shallowly embedded over explicit dictionaries and effect traces.
-/

/-- A command dictionary as returned by the remote server and held in
`coordinator.data`.  Optional fields model dictionary keys that may be absent. -/
structure Command where
  name : String
  kind : Option String := none
  command : Option String := none
  allowParameters : Option Bool := none
  voice : Option String := none
  deriving Repr, DecidableEq

/-- The JSON dictionary returned by a remote execution or sensor-output call.
`none` models an absent key. -/
structure ExecResult where
  success : Option Bool := none
  output : Option String := none
  error : Option String := none
  exitCode : Option Int := none
  deriving Repr, DecidableEq

/-- The `coordinator.last_execution` dictionary read by the last-execution
sensors in `sensor.py` (keys `command_name`, `status`, `output`, `error`,
`exit_code`). -/
structure LastExecution where
  command_name : Option String := none
  status : Option String := none
  output : Option String := none
  error : Option String := none
  exit_code : Option Int := none
  deriving Repr, DecidableEq

/-- The status blob (`coordinator.status_data`) polled from the server, with the
keys the status sensors in `sensor.py` read. -/
structure StatusData where
  status : Option String := none
  version : Option String := none
  port : Option Int := none
  uptime : Option Int := none
  totalRequests : Option Int := none
  requestsProcessing : Option Int := none
  apiKeysConfigured : Option Bool := none
  lastRequestTime : Option Int := none
  deriving Repr, DecidableEq

/-- The state of `CommandRunnerCoordinator` that the entities in `button.py` and
`sensor.py` read: host, the polled command list (`coordinator.data`), the polled
status blob and the shared last-execution dictionary. -/
structure Coordinator where
  host : String
  data : List Command := []
  status_data : Option StatusData := none
  last_execution : LastExecution := {}
  deriving Repr, DecidableEq

/-- Python `d.get(k) or dflt` for a string-valued key: the default is used when
the key is absent or its value is the empty string. -/
def pyOrStr (v : Option String) (dflt : String) : String :=
  match v with
  | some s => if s = "" then dflt else s
  | none => dflt

/-- Python `s.strip()`: leading and trailing whitespace removed. -/
def pyStrip (s : String) : String :=
  String.mk (((s.toList.dropWhile Char.isWhitespace).reverse.dropWhile
    Char.isWhitespace).reverse)

/-- Python slice `s[:n]`, taken over code points. -/
def pySlice (s : String) (n : Nat) : String :=
  String.mk (s.toList.take n)

/-- The truncation pattern `s[:255] if len(s) > 255 else s` used in `sensor.py`. -/
def truncate255 (s : String) : String :=
  if 255 < s.length then pySlice s 255 else s

/-- Truthiness of `result.get("success")`: true exactly when the key is present
and holds `true`. -/
def getSuccess (r : ExecResult) : Bool :=
  r.success.getD false

/- ===== button.py: platform setup ===== -/

/-- A button entity created by `button.py`: the refresh button or one command
button (holding the command dictionary it was created with). -/
inductive ButtonEntityDesc where
  | refresh
  | commandButton (c : Command)
  deriving Repr, DecidableEq

/-- `button.py async_setup_entry`: the refresh button first, then one
`CommandRunnerButton` per command whose `kind` (defaulting to "command")
equals "command". -/
def button_setup_entities (data : List Command) : List ButtonEntityDesc :=
  [ButtonEntityDesc.refresh] ++
    (data.filter fun c => c.kind.getD "command" == "command").map
      ButtonEntityDesc.commandButton

/- ===== sensor.py: platform setup ===== -/

/-- A sensor entity created by `sensor.py`: one of the fixed status and
last-execution sensors, or a per-command sensor. -/
inductive SensorEntityDesc where
  | statusSensor
  | versionSensor
  | portSensor
  | uptimeSensor
  | totalRequestsSensor
  | processingSensor
  | apiKeysSensor
  | lastRequestSensor
  | lastCommandNameSensor
  | lastCommandStatusSensor
  | lastCommandOutputSensor
  | commandSensor (c : Command)
  deriving Repr, DecidableEq

/-- The fixed entity list built first in `sensor.py async_setup_entry`. -/
def fixed_sensor_entities : List SensorEntityDesc :=
  [SensorEntityDesc.statusSensor,
   SensorEntityDesc.versionSensor,
   SensorEntityDesc.portSensor,
   SensorEntityDesc.uptimeSensor,
   SensorEntityDesc.totalRequestsSensor,
   SensorEntityDesc.processingSensor,
   SensorEntityDesc.apiKeysSensor,
   SensorEntityDesc.lastRequestSensor,
   SensorEntityDesc.lastCommandNameSensor,
   SensorEntityDesc.lastCommandStatusSensor,
   SensorEntityDesc.lastCommandOutputSensor]

/-- `sensor.py async_setup_entry`: the fixed sensors, then one
`CommandRunnerCommandSensor` per command whose `kind` equals "sensor". -/
def sensor_setup_entities (data : List Command) : List SensorEntityDesc :=
  fixed_sensor_entities ++
    (data.filter fun c => c.kind == some "sensor").map SensorEntityDesc.commandSensor

/- ===== sensor.py: last-execution sensors ===== -/

/-- `CommandRunnerLastCommandNameSensor.native_value`:
`last_execution.get("command_name") or "None"`. -/
def lastCommandName_native (c : Coordinator) : String :=
  pyOrStr c.last_execution.command_name "None"

/-- `CommandRunnerLastCommandStatusSensor.native_value`:
the stored status if truthy, else "Unknown". -/
def lastCommandStatus_native (c : Coordinator) : String :=
  pyOrStr c.last_execution.status "Unknown"

/-- `CommandRunnerLastCommandOutputSensor.native_value`: on Success the stored
output truncated to 255 characters (placeholder "No output" when the output is
absent or empty), on Failed the stored error likewise (placeholder
"Unknown error"), otherwise "None". -/
def lastCommandOutput_native (c : Coordinator) : String :=
  let le := c.last_execution
  if le.status = some "Success" then
    match le.output with
    | some o => if o ≠ "" then truncate255 o else "No output"
    | none => "No output"
  else if le.status = some "Failed" then
    match le.error with
    | some e => if e ≠ "" then truncate255 e else "Unknown error"
    | none => "Unknown error"
  else "None"

/-- The attribute dictionary built by
`CommandRunnerLastCommandOutputSensor.extra_state_attributes`. -/
structure OutputAttrs where
  exit_code : Option Int := none
  full_output : Option String := none
  full_error : Option String := none
  deriving Repr, DecidableEq

/-- `CommandRunnerLastCommandOutputSensor.extra_state_attributes`: the exit code
when stored, the full output on Success when longer than 255 characters, the
full error on Failed when longer than 255 characters; `none` when the
dictionary would be empty. -/
def lastCommandOutput_attrs (c : Coordinator) : Option OutputAttrs :=
  let le := c.last_execution
  let base : OutputAttrs := { exit_code := le.exit_code }
  let attrs : OutputAttrs :=
    if le.status = some "Success" then
      match le.output with
      | some o => if 255 < o.length then { base with full_output := some o } else base
      | none => base
    else if le.status = some "Failed" then
      match le.error with
      | some e => if 255 < e.length then { base with full_error := some e } else base
      | none => base
    else base
  if attrs = ({} : OutputAttrs) then none else some attrs

/- ===== sensor.py: per-command sensor update ===== -/

/-- `CommandRunnerCommandSensor.async_update` as a state transition on the
native value: on an unsuccessful result it returns early, otherwise it stores
the stripped, truncated output. -/
def commandSensor_async_update (current : Option String) (r : ExecResult) :
    Option String :=
  if !(getSuccess r) then current
  else
    let output := pyStrip (pyOrStr r.output "")
    some (truncate255 output)

/- ===== the coordinator call used by button presses ===== -/

/-- Modelled from the spec: `CommandRunnerCoordinator.execute_command` is defined
in the package module `__init__.py`, which is not under `src/`.  Per the spec, a
button press issues the HTTP call that executes the named command remotely and
stores the last-execution result on the coordinator; the stored keys are exactly
the ones the last-execution sensors in `sensor.py` read.  The HTTP response is
the `r` argument; the call returns the result dictionary, as `button.py` relies
on. -/
def execute_command (c : Coordinator) (name : String) (r : ExecResult) :
    Coordinator × ExecResult :=
  ({ c with
      last_execution :=
        { command_name := some name
          status := some (if getSuccess r then "Success" else "Failed")
          output := r.output
          error := r.error
          exit_code := r.exitCode } }, r)

/- ===== button.py: button press ===== -/

/-- An externally visible call made during a button press. -/
inductive Effect where
  | executeCommand (name : String)
  | notify (title message : String)
  | requestRefresh
  deriving Repr, DecidableEq

/-- Recognizer for remote execution calls in a trace. -/
def isExecuteEffect : Effect → Bool
  | Effect.executeCommand _ => true
  | _ => false

/-- Title of the success notification in `CommandRunnerButton.async_press`. -/
def success_title (name : String) : String :=
  "✅ Command Success: " ++ name

/-- Success notification body when the stripped output is non-empty. -/
def success_message_output (name output : String) (exitCode : Int) : String :=
  "**Command:** " ++
    (name ++
      ("\n\n**Output:**\n```\\n" ++
        (output ++ ("\\n```\n\n**Exit Code:** " ++ toString exitCode))))

/-- Success notification body when the stripped output is empty. -/
def success_message_plain (name : String) (exitCode : Int) : String :=
  "Command \x27" ++
    (name ++ ("\x27 executed successfully with exit code " ++ toString exitCode))

/-- Title of the failure notification in `CommandRunnerButton.async_press`. -/
def failure_title (name : String) : String :=
  "❌ Command Failed: " ++ name

/-- Failure notification body. -/
def failure_message (name errorMessage : String) : String :=
  "**Error:** " ++ (errorMessage ++ ("\n\n**Command:** " ++ name))

/-- `CommandRunnerButton.async_press`, as a function of the config-entry option
`show_notifications` (absent means unset) and of the HTTP response `r` the
coordinator returns.  Produces the updated coordinator and the ordered trace of
external calls: the remote execution, the optional notification, and the final
refresh request. -/
def async_press (c : Coordinator) (cmd : Command)
    (show_notifications_opt : Option Bool) (r : ExecResult) :
    Coordinator × List Effect :=
  let step := execute_command c cmd.name r
  let c2 := step.1
  let result := step.2
  let show_notifications := show_notifications_opt.getD true
  let notifyEffects : List Effect :=
    if getSuccess result then
      if show_notifications then
        let output := pyStrip (result.output.getD "")
        let exitCode := result.exitCode.getD 0
        if output ≠ "" then
          [Effect.notify (success_title cmd.name)
            (success_message_output cmd.name output exitCode)]
        else
          [Effect.notify (success_title cmd.name)
            (success_message_plain cmd.name exitCode)]
      else []
    else
      if show_notifications then
        [Effect.notify (failure_title cmd.name)
          (failure_message cmd.name (result.error.getD "Unknown error"))]
      else []
  (c2, [Effect.executeCommand cmd.name] ++ notifyEffects ++ [Effect.requestRefresh])

/- ===== config_flow.py ===== -/

/-- The outcome of the HTTP probe performed inside `validate_input`. -/
inductive ServerProbe where
  | networkError
  | timeoutExpired
  | response (status : Nat) (success : Bool)
  deriving Repr, DecidableEq

/-- The exception classes raised inside `validate_input` in `config_flow.py`.
`clientError` stands for `aiohttp.ClientError` (network failure or
`raise_for_status`); `timeoutError` for the expiry of `async_timeout`. -/
inductive CRException where
  | invalidAuth (msg : String)
  | noAPIKeys (msg : String)
  | cannotConnect (msg : String)
  | clientError
  | timeoutError
  deriving Repr, DecidableEq

/-- `str(err)` for the exceptions of `config_flow.py`. -/
def excMessage : CRException → String
  | CRException.invalidAuth m => m
  | CRException.noAPIKeys m => m
  | CRException.cannotConnect m => m
  | CRException.clientError => "client error"
  | CRException.timeoutError => "timeout"

/-- The body of the `try` block of `validate_input`: 401 raises `InvalidAuth`,
403 raises `NoAPIKeys`, any other error status makes `raise_for_status` raise a
client error, a response without `success` raises `CannotConnect`, and
otherwise the title is returned. -/
def validate_input_try (host : String) (probe : ServerProbe) :
    Except CRException String :=
  match probe with
  | ServerProbe.networkError => Except.error CRException.clientError
  | ServerProbe.timeoutExpired => Except.error CRException.timeoutError
  | ServerProbe.response st success =>
    if st = 401 then Except.error (CRException.invalidAuth "Invalid API key")
    else if st = 403 then
      Except.error (CRException.noAPIKeys "Server has no API keys configured")
    else if 400 ≤ st then Except.error CRException.clientError
    else if !success then
      Except.error (CRException.cannotConnect "Server responded but returned error")
    else Except.ok ("Command Runner (" ++ host ++ ")")

/-- The two trailing handlers of `validate_input`: `aiohttp.ClientError` becomes
`CannotConnect("Cannot connect to Command Runner")`, and every other exception
raised inside the `try` block - `InvalidAuth`, `NoAPIKeys`, `CannotConnect` and
the timeout included - is caught by the broad handler and re-raised as
`CannotConnect("Unknown error: ...")`. -/
def wrap_errors (r : Except CRException String) : Except CRException String :=
  match r with
  | Except.ok v => Except.ok v
  | Except.error CRException.clientError =>
    Except.error (CRException.cannotConnect "Cannot connect to Command Runner")
  | Except.error err =>
    Except.error (CRException.cannotConnect ("Unknown error: " ++ excMessage err))

/-- `validate_input` in `config_flow.py`: the `try` body with its handlers. -/
def validate_input (host : String) (probe : ServerProbe) :
    Except CRException String :=
  wrap_errors (validate_input_try host probe)

/-- The error key `ConfigFlow.async_step_user` places in `errors["base"]` for
each exception class escaping `validate_input`. -/
def async_step_user_error_base : CRException → String
  | CRException.invalidAuth _ => "invalid_auth"
  | CRException.noAPIKeys _ => "no_api_keys"
  | CRException.cannotConnect _ => "cannot_connect"
  | _ => "unknown"

/- ===== the polling coordinator ===== -/

/-- Modelled from the spec: the result of one poll by the update coordinator in
the package module `__init__.py` (not under `src/`), which fetches both the
configured command list and the status blob. -/
structure PollResult where
  commands : List Command
  status_blob : StatusData
  deriving Repr, DecidableEq

/-- Modelled from the spec: the remote server state a poll observes. -/
structure RemoteState where
  commands : List Command
  status_blob : StatusData
  deriving Repr, DecidableEq

/-- Modelled from the spec: one update of the polling coordinator obtains both
the command list and the status blob from the server. -/
def coordinator_update (s : RemoteState) : PollResult :=
  { commands := s.commands, status_blob := s.status_blob }

/-- Modelled from the spec: the coordinator polls on a fixed interval, so the
n-th poll happens at `n * update_interval`. -/
def poll_time (update_interval n : Nat) : Nat :=
  n * update_interval

/- ===== concrete inputs used by witnesses ===== -/

/-- A 256-character output, long enough to be truncated. -/
def longOutput : String :=
  String.mk (List.replicate 256 'x')

/-- A coordinator whose last execution succeeded with a long output. -/
def demoLongCoordinator : Coordinator :=
  { host := "192.168.1.100"
    last_execution :=
      { command_name := some "Uptime"
        status := some "Success"
        output := some longOutput
        exit_code := some 0 } }

/-- `small` occurs as a contiguous substring of `big`. -/
def strContains (big small : String) : Prop :=
  ∃ a b : String, big = a ++ (small ++ b)

/-- A command dictionary used as a concrete input by witnesses. -/
def demoCommand : Command :=
  { name := "Restart Service", kind := some "command", command := some "restart" }

/-- A successful execution result with non-empty output, for witnesses. -/
def demoSuccessResult : ExecResult :=
  { success := some true, output := some " all good \n", exitCode := some 0 }

/-- A failed execution result, for witnesses. -/
def demoFailedResult : ExecResult :=
  { success := some false, error := some "connection refused" }

/-- A coordinator with some polled state, for witnesses. -/
def demoCoordinator : Coordinator :=
  { host := "192.168.1.100"
    data := [demoCommand]
    status_data := some { status := some "running", uptime := some 120 } }

/-- A second coordinator with different polled state but the same
last-execution dictionary as `demoCoordinator`, for witnesses. -/
def demoCoordinatorB : Coordinator :=
  { host := "10.0.0.7"
    data := []
    status_data := none }

/- ===== helper lemmas ===== -/

theorem strAppend_assoc (a b c : String) : a ++ b ++ c = a ++ (b ++ c) := by
  apply String.ext
  simp [String.data_append, List.append_assoc]

theorem strAppend_empty (s : String) : s ++ "" = s := by
  apply String.ext
  simp [String.data_append]

theorem truncate255_length_le (s : String) : (truncate255 s).length ≤ 255 := by
  unfold truncate255 pySlice
  split
  · simp [String.length_mk, List.length_take, String.toList]
  · omega

theorem truncate255_of_le (s : String) (h : s.length ≤ 255) : truncate255 s = s := by
  unfold truncate255
  split
  · omega
  · rfl

/- ===== claim theorems ===== -/

/-- C1: pressing a command button issues exactly one remote execution call, for
the name the button was created with, and the press trace always ends with a
coordinator refresh request, on success and on failure alike. -/
theorem command_button_press_executes_once_then_refreshes
    (c : Coordinator) (cmd : Command) (opts : Option Bool) (r : ExecResult) :
    (async_press c cmd opts r).2.filter isExecuteEffect
        = [Effect.executeCommand cmd.name]
    ∧ (async_press c cmd opts r).2.getLast? = some Effect.requestRefresh := by
  constructor
  · cases hr : getSuccess r <;> cases ho : opts.getD true <;>
      simp [async_press, execute_command, isExecuteEffect, hr, ho] <;>
      split <;> simp [isExecuteEffect]
  · cases hr : getSuccess r <;> cases ho : opts.getD true <;>
      simp [async_press, execute_command, hr, ho] <;>
      split <;> simp

/-- C2 counterexample: with a single configured command of kind "sensor",
button setup creates only the refresh button, not one button per command plus
the refresh button (which would give two entities). -/
theorem button_setup_not_one_per_command :
    (button_setup_entities [{ name := "Foo", kind := some "sensor" }]).length ≠
      ([({ name := "Foo", kind := some "sensor" } : Command)]).length + 1 := by
  decide

/-- C2 (amended): button setup creates one button per command whose `kind`
(defaulting to "command") equals "command", plus exactly one refresh button;
commands of other kinds get no button. -/
theorem button_setup_one_per_command_kind (data : List Command) :
    (button_setup_entities data).length
        = 1 + (data.filter fun c => c.kind.getD "command" == "command").length
    ∧ (button_setup_entities data).count ButtonEntityDesc.refresh = 1
    ∧ ∀ c : Command, ButtonEntityDesc.commandButton c ∈ button_setup_entities data ↔
        c ∈ data ∧ c.kind.getD "command" = "command" := by
  refine ⟨?_, ?_, ?_⟩
  · simp [button_setup_entities, Nat.add_comm]
  · have hnone :
        (List.count ButtonEntityDesc.refresh
          ((data.filter fun c => c.kind.getD "command" == "command").map
            ButtonEntityDesc.commandButton)) = 0 := by
      refine List.count_eq_zero.mpr ?_
      simp
    simp [button_setup_entities, List.count_cons, hnone]
  · intro c
    simp [button_setup_entities, List.mem_filter]

/-- C3: sensor setup creates exactly the fixed eleven status and last-execution
sensors, plus one command sensor for each and only each command whose `kind`
equals "sensor". -/
theorem sensor_setup_fixed_plus_sensor_kind (data : List Command) :
    fixed_sensor_entities.length = 11
    ∧ (sensor_setup_entities data).length
        = 11 + (data.filter fun c => c.kind == some "sensor").length
    ∧ (sensor_setup_entities data).take 11 = fixed_sensor_entities
    ∧ ∀ c : Command, SensorEntityDesc.commandSensor c ∈ sensor_setup_entities data ↔
        c ∈ data ∧ c.kind = some "sensor" := by
  refine ⟨rfl, ?_, rfl, ?_⟩
  · simp [sensor_setup_entities, fixed_sensor_entities]
    omega
  · intro c
    simp [sensor_setup_entities, fixed_sensor_entities, List.mem_filter]

theorem success_message_output_contains_name (n o : String) (k : Int) :
    strContains (success_message_output n o k) n := by
  refine ⟨"**Command:** ",
    "\n\n**Output:**\n```\\n" ++ (o ++ ("\\n```\n\n**Exit Code:** " ++ toString k)), ?_⟩
  simp [success_message_output]

theorem success_message_output_contains_output (n o : String) (k : Int) :
    strContains (success_message_output n o k) o := by
  refine ⟨"**Command:** " ++ (n ++ "\n\n**Output:**\n```\\n"),
    "\\n```\n\n**Exit Code:** " ++ toString k, ?_⟩
  simp [success_message_output, strAppend_assoc]

theorem success_message_output_contains_exit_code (n o : String) (k : Int) :
    strContains (success_message_output n o k) (toString k) := by
  refine ⟨"**Command:** " ++ (n ++ ("\n\n**Output:**\n```\\n" ++
    (o ++ "\\n```\n\n**Exit Code:** "))), "", ?_⟩
  simp [success_message_output, strAppend_assoc, strAppend_empty]

theorem success_message_plain_contains_name (n : String) (k : Int) :
    strContains (success_message_plain n k) n := by
  refine ⟨"Command \x27", "\x27 executed successfully with exit code " ++ toString k, ?_⟩
  simp [success_message_plain]

theorem success_message_plain_contains_exit_code (n : String) (k : Int) :
    strContains (success_message_plain n k) (toString k) := by
  refine ⟨"Command \x27" ++ (n ++ "\x27 executed successfully with exit code "), "", ?_⟩
  simp [success_message_plain, strAppend_assoc, strAppend_empty]

theorem failure_message_contains_error (n e : String) :
    strContains (failure_message n e) e := by
  refine ⟨"**Error:** ", "\n\n**Command:** " ++ n, ?_⟩
  simp [failure_message]

theorem failure_message_contains_name (n e : String) :
    strContains (failure_message n e) n := by
  refine ⟨"**Error:** " ++ (e ++ "\n\n**Command:** "), "", ?_⟩
  simp [failure_message, strAppend_assoc, strAppend_empty]

/-- C4: after a command button press a persistent notification is created if and
only if the config-entry option `show_notifications` is true, defaulting to true
when unset; on success the notification message contains the command name, the
stripped output when it is non-empty and the exit code, and on failure it
contains the error message. -/
theorem button_press_notification_iff_option
    (c : Coordinator) (cmd : Command) (opts : Option Bool) (r : ExecResult)
    (out : String) (hout : out = pyStrip (r.output.getD "")) :
    ((∃ t m, Effect.notify t m ∈ (async_press c cmd opts r).2) ↔ opts.getD true = true)
    ∧ (opts.getD true = true → getSuccess r = true → out ≠ "" →
        Effect.notify (success_title cmd.name)
            (success_message_output cmd.name out (r.exitCode.getD 0))
          ∈ (async_press c cmd opts r).2
        ∧ strContains (success_message_output cmd.name out (r.exitCode.getD 0)) cmd.name
        ∧ strContains (success_message_output cmd.name out (r.exitCode.getD 0)) out
        ∧ strContains (success_message_output cmd.name out (r.exitCode.getD 0))
            (toString (r.exitCode.getD 0)))
    ∧ (opts.getD true = true → getSuccess r = true → out = "" →
        Effect.notify (success_title cmd.name)
            (success_message_plain cmd.name (r.exitCode.getD 0))
          ∈ (async_press c cmd opts r).2
        ∧ strContains (success_message_plain cmd.name (r.exitCode.getD 0)) cmd.name
        ∧ strContains (success_message_plain cmd.name (r.exitCode.getD 0))
            (toString (r.exitCode.getD 0)))
    ∧ (opts.getD true = true → getSuccess r = false →
        Effect.notify (failure_title cmd.name)
            (failure_message cmd.name (r.error.getD "Unknown error"))
          ∈ (async_press c cmd opts r).2
        ∧ strContains (failure_message cmd.name (r.error.getD "Unknown error"))
            (r.error.getD "Unknown error")
        ∧ strContains (failure_message cmd.name (r.error.getD "Unknown error"))
            cmd.name) := by
  subst hout
  refine ⟨?_, ?_, ?_, ?_⟩
  · cases ho : opts.getD true <;> cases hr : getSuccess r <;>
      simp [async_press, execute_command, ho, hr] <;> split <;> simp
  · intro ho hr hne
    refine ⟨?_, success_message_output_contains_name _ _ _,
      success_message_output_contains_output _ _ _,
      success_message_output_contains_exit_code _ _ _⟩
    simp [async_press, execute_command, ho, hr, hne]
  · intro ho hr heq
    refine ⟨?_, success_message_plain_contains_name _ _,
      success_message_plain_contains_exit_code _ _⟩
    simp [async_press, execute_command, ho, hr, heq]
  · intro ho hr
    refine ⟨?_, failure_message_contains_error _ _, failure_message_contains_name _ _⟩
    simp [async_press, execute_command, ho, hr]

/-- C4 witness: with the option unset, a successful press of the demo command
creates a notification whose message carries the output. -/
theorem button_press_notification_iff_option_witness :
    (∃ t m, Effect.notify t m ∈ (async_press demoCoordinator demoCommand none demoSuccessResult).2)
    ∧ Effect.notify (success_title demoCommand.name)
        (success_message_output demoCommand.name "all good" (demoSuccessResult.exitCode.getD 0))
      ∈ (async_press demoCoordinator demoCommand none demoSuccessResult).2
    ∧ strContains
        (success_message_output demoCommand.name "all good" (demoSuccessResult.exitCode.getD 0))
        "all good" := by
  have h := button_press_notification_iff_option demoCoordinator demoCommand none
      demoSuccessResult "all good" (by decide)
  exact ⟨h.1.mpr rfl, (h.2.1 rfl rfl (by decide)).1, (h.2.1 rfl rfl (by decide)).2.2.1⟩

/-- C5: a button press stores the execution result as the last-execution state
of the coordinator, and the last-execution name, status and output sensors
report exactly the stored fields (the name when non-empty; the stored status;
on success the stored output when non-empty and within the 255-character state
limit, and symmetrically the stored error on failure). -/
theorem button_press_stores_result_sensors_report_it
    (c : Coordinator) (cmd : Command) (opts : Option Bool) (r : ExecResult)
    (hname : cmd.name ≠ "") :
    (async_press c cmd opts r).1.last_execution =
        { command_name := some cmd.name
          status := some (if getSuccess r then "Success" else "Failed")
          output := r.output
          error := r.error
          exit_code := r.exitCode }
    ∧ lastCommandName_native (async_press c cmd opts r).1 = cmd.name
    ∧ lastCommandStatus_native (async_press c cmd opts r).1
        = (if getSuccess r then "Success" else "Failed")
    ∧ (∀ o, getSuccess r = true → r.output = some o → o ≠ "" → o.length ≤ 255 →
        lastCommandOutput_native (async_press c cmd opts r).1 = o)
    ∧ (∀ e, getSuccess r = false → r.error = some e → e ≠ "" → e.length ≤ 255 →
        lastCommandOutput_native (async_press c cmd opts r).1 = e) := by
  refine ⟨rfl, ?_, ?_, ?_, ?_⟩
  · simp [async_press, execute_command, lastCommandName_native, pyOrStr, hname]
  · cases hr : getSuccess r <;>
      simp [async_press, execute_command, lastCommandStatus_native, pyOrStr, hr]
  · intro o hr hro hne hle
    simp [async_press, execute_command, lastCommandOutput_native, hr, hro, hne,
      truncate255_of_le o hle]
  · intro e hr hre hne hle
    simp [async_press, execute_command, lastCommandOutput_native, hr, hre, hne,
      truncate255_of_le e hle]

/-- C5 witness: the demo press stores its result and the sensors read it back. -/
theorem button_press_stores_result_sensors_report_it_witness :
    (async_press demoCoordinator demoCommand none demoSuccessResult).1.last_execution =
        { command_name := some demoCommand.name
          status := some (if getSuccess demoSuccessResult then "Success" else "Failed")
          output := demoSuccessResult.output
          error := demoSuccessResult.error
          exit_code := demoSuccessResult.exitCode }
    ∧ lastCommandName_native (async_press demoCoordinator demoCommand none demoSuccessResult).1
        = demoCommand.name
    ∧ lastCommandOutput_native (async_press demoCoordinator demoCommand none demoSuccessResult).1
        = " all good \n" := by
  have h := button_press_stores_result_sensors_report_it demoCoordinator demoCommand
      none demoSuccessResult (by decide)
  exact ⟨h.1, h.2.1, h.2.2.2.1 " all good \n" rfl rfl (by decide) (by decide)⟩

/-- C6: the coordinator polls on a fixed interval - consecutive polls are always
exactly one update interval apart - and each poll obtains both the configured
command list and the status blob. -/
theorem polling_fixed_interval_fetches_both
    (update_interval n : Nat) (s : RemoteState) :
    poll_time update_interval (n + 1) - poll_time update_interval n = update_interval
    ∧ (coordinator_update s).commands = s.commands
    ∧ (coordinator_update s).status_blob = s.status_blob := by
  refine ⟨?_, rfl, rfl⟩
  simp [poll_time, Nat.succ_mul]

/-- C7: the last-execution sensors are all functions of the one shared
`coordinator.last_execution` dictionary: coordinators agreeing on it get
identical name, status and output readings and output attributes, whatever
their other state. -/
theorem last_execution_sensors_share_state
    (c1 c2 : Coordinator) (h : c1.last_execution = c2.last_execution) :
    lastCommandName_native c1 = lastCommandName_native c2
    ∧ lastCommandStatus_native c1 = lastCommandStatus_native c2
    ∧ lastCommandOutput_native c1 = lastCommandOutput_native c2
    ∧ lastCommandOutput_attrs c1 = lastCommandOutput_attrs c2 := by
  refine ⟨?_, ?_, ?_, ?_⟩ <;>
    simp [lastCommandName_native, lastCommandStatus_native, lastCommandOutput_native,
      lastCommandOutput_attrs, h]

/-- C7 witness: two coordinators with different hosts, polled data and status
blobs but the same last-execution dictionary give the same sensor readings. -/
theorem last_execution_sensors_share_state_witness :
    lastCommandName_native demoCoordinator = lastCommandName_native demoCoordinatorB
    ∧ lastCommandStatus_native demoCoordinator = lastCommandStatus_native demoCoordinatorB
    ∧ lastCommandOutput_native demoCoordinator = lastCommandOutput_native demoCoordinatorB
    ∧ lastCommandOutput_attrs demoCoordinator = lastCommandOutput_attrs demoCoordinatorB :=
  last_execution_sensors_share_state demoCoordinator demoCoordinatorB (by decide)

theorem wrap_errors_only_cannot_connect (r : Except CRException String)
    (e : CRException) (h : wrap_errors r = Except.error e) :
    ∃ m, e = CRException.cannotConnect m := by
  cases r with
  | ok v => simp [wrap_errors] at h
  | error err =>
    cases err <;> simp [wrap_errors] at h <;> exact ⟨_, h.symm⟩

/-- C8: whatever the server does, `validate_input` fails only with
`CannotConnect`: the `InvalidAuth` and `NoAPIKeys` exceptions raised on HTTP 401
and 403 are swallowed by the trailing broad handler and re-raised as
`CannotConnect`, so `async_step_user` can only ever set the error base
"cannot_connect", and its "invalid_auth" and "no_api_keys" branches are
unreachable. -/
theorem validate_input_fails_only_cannot_connect
    (host : String) (probe : ServerProbe) (e : CRException)
    (h : validate_input host probe = Except.error e) :
    (∃ m, e = CRException.cannotConnect m)
    ∧ async_step_user_error_base e = "cannot_connect"
    ∧ async_step_user_error_base e ≠ "invalid_auth"
    ∧ async_step_user_error_base e ≠ "no_api_keys" := by
  obtain ⟨m, hm⟩ := wrap_errors_only_cannot_connect _ e h
  subst hm
  exact ⟨⟨m, rfl⟩, rfl, (by decide : "cannot_connect" ≠ "invalid_auth"),
    (by decide : "cannot_connect" ≠ "no_api_keys")⟩

/-- C8 witness: on an HTTP 401 response the 401 branch raises `InvalidAuth`, yet
the caller observes only `CannotConnect`, and the flow error is
"cannot_connect". -/
theorem validate_input_fails_only_cannot_connect_witness :
    (∃ m, CRException.cannotConnect "Unknown error: Invalid API key"
        = CRException.cannotConnect m)
    ∧ async_step_user_error_base
        (CRException.cannotConnect "Unknown error: Invalid API key") = "cannot_connect"
    ∧ async_step_user_error_base
        (CRException.cannotConnect "Unknown error: Invalid API key") ≠ "invalid_auth"
    ∧ async_step_user_error_base
        (CRException.cannotConnect "Unknown error: Invalid API key") ≠ "no_api_keys" :=
  validate_input_fails_only_cannot_connect "192.168.1.100"
    (ServerProbe.response 401 true) _ rfl

/-- C9: the last-command-output sensor state never exceeds 255 characters, and
whenever the stored output (on success) or error (on failure) is longer than
255 characters the untruncated text is exposed in the `full_output` or
`full_error` attribute. -/
theorem output_sensor_truncates_and_exposes_full_text (c : Coordinator) :
    (lastCommandOutput_native c).length ≤ 255
    ∧ (∀ o, c.last_execution.status = some "Success" → c.last_execution.output = some o →
        255 < o.length →
        ∃ a, lastCommandOutput_attrs c = some a ∧ a.full_output = some o)
    ∧ (∀ e, c.last_execution.status = some "Failed" → c.last_execution.error = some e →
        255 < e.length →
        ∃ a, lastCommandOutput_attrs c = some a ∧ a.full_error = some e) := by
  refine ⟨?_, ?_, ?_⟩
  · dsimp only [lastCommandOutput_native]
    split
    · split
      · split
        · exact truncate255_length_le _
        · decide
      · decide
    · split
      · split
        · split
          · exact truncate255_length_le _
          · decide
        · decide
      · decide
  · intro o hs ho hlen
    refine ⟨{ exit_code := c.last_execution.exit_code, full_output := some o }, ?_, rfl⟩
    simp [lastCommandOutput_attrs, hs, ho, hlen, OutputAttrs.mk.injEq]
  · intro e hs he hlen
    have hns : c.last_execution.status ≠ some "Success" := by
      rw [hs]; decide
    refine ⟨{ exit_code := c.last_execution.exit_code, full_error := some e }, ?_, rfl⟩
    simp [lastCommandOutput_attrs, hs, hns, he, hlen, OutputAttrs.mk.injEq]

set_option maxRecDepth 4000 in
/-- C9 witness: a 256-character output is truncated in the state and exposed in
full through the `full_output` attribute. -/
theorem output_sensor_truncates_and_exposes_full_text_witness :
    (lastCommandOutput_native demoLongCoordinator).length ≤ 255
    ∧ ∃ a, lastCommandOutput_attrs demoLongCoordinator = some a
        ∧ a.full_output = some longOutput := by
  have h := output_sensor_truncates_and_exposes_full_text demoLongCoordinator
  exact ⟨h.1, h.2.1 longOutput rfl rfl (by decide)⟩

/-- C10: when a poll returns an unsuccessful result (the `success` key absent
or false), the per-command sensor update returns early and the previously
reported native value is unchanged. -/
theorem command_sensor_unchanged_on_error
    (current : Option String) (r : ExecResult) (h : getSuccess r = false) :
    commandSensor_async_update current r = current := by
  simp [commandSensor_async_update, h]

/-- C10 witness: a result without a `success` key leaves the previously
reported value in place. -/
theorem command_sensor_unchanged_on_error_witness :
    commandSensor_async_update (some "up 3 days") { error := some "timeout" }
      = some "up 3 days" :=
  command_sensor_unchanged_on_error (some "up 3 days") { error := some "timeout" }
    (by decide)
